import Mathlib

/-!
Verification development for the AI-Financial-Advisory-Team repository.

The HTTP layer (src/app.py) is embedded shallowly: each Flask handler becomes a
Lean function from the request body (an optional JSON object, i.e. the result of
request.get_json restricted to dict bodies) to an HTTP response, together with
the trace of calls the handler makes into its collaborator (the report agent or
the forum engine) and the updated persistent store where the handler writes one.

The agents and the forum engine (tools/, agents/, models/forum_engine.py) are
not present under src/; where a claim is decided by that code, the missing
component is modelled from the spec and its doc comment says so.
-/

set_option autoImplicit false

namespace FinAdvisory

/-- JSON values, as produced by request.get_json / consumed by jsonify.
Numbers are modelled as integers (no claim involves fractional values). -/
inductive Json where
  | null : Json
  | bool (b : Bool) : Json
  | num (n : Int) : Json
  | str (s : String) : Json
  | arr (elements : List Json) : Json
  | obj (fields : List (String × Json)) : Json

/-- A JSON object body, the dict case of request.get_json.  Keys are unique as
in a Python dict; lookup returns the value of the first matching key. -/
abbrev Dict := List (String × Json)

/-- Look a key up in a JSON object body (Python `data[k]` / `k in data`). -/
def Dict.lookup (d : Dict) (k : String) : Option Json :=
  List.lookup k d

/-- The body of an HTTP response: jsonify output, or a served file. -/
inductive RespBody where
  | json (j : Json) : RespBody
  | html (content : String) : RespBody

/-- An HTTP response: status code plus body. -/
structure Response where
  status : Nat
  body : RespBody

/-- Build a jsonify response. -/
def jsonResp (status : Nat) (j : Json) : Response :=
  ⟨status, RespBody.json j⟩

/-! ## generate_report (src/app.py lines 143-179)

The report agent is not under src/, so the handler is parametrised by the
composition function `compose`; it returns the response together with the list
of invocations of `compose` (each invocation records the four arguments
query_data, analysis_results, insights, user_profile, the last being
Json.null when absent, as Python passes None). An exception raised by the
agent is modelled by `compose` returning `Except.error`, which the
try/except of the handler turns into a 500 failure response. -/

/-- Embedding of the generate_report handler of src/app.py. -/
def generate_report (compose : Json → Json → Json → Json → Except String Json)
    (body : Option Dict) : Response × List (Json × Json × Json × Json) :=
  match body with
  | none => (jsonResp 400 (.obj [("error", .str "请求数据为空")]), [])
  | some data =>
    if data.isEmpty then
      (jsonResp 400 (.obj [("error", .str "请求数据为空")]), [])
    else
      match data.lookup "query_data" with
      | none => (jsonResp 400 (.obj [("error", .str "缺少必要字段: query_data")]), [])
      | some query_data =>
        match data.lookup "analysis_results" with
        | none =>
          (jsonResp 400 (.obj [("error", .str "缺少必要字段: analysis_results")]), [])
        | some analysis_results =>
          match data.lookup "insights" with
          | none => (jsonResp 400 (.obj [("error", .str "缺少必要字段: insights")]), [])
          | some insights =>
            let user_profile := (data.lookup "user_profile").getD Json.null
            let call := (query_data, analysis_results, insights, user_profile)
            match compose query_data analysis_results insights user_profile with
            | .ok report_result =>
              (jsonResp 200 (.obj [("success", .bool true), ("data", report_result)]),
                [call])
            | .error e =>
              (jsonResp 500 (.obj [("success", .bool false), ("error", .str e)]),
                [call])

/-! ## analyze_market (src/app.py lines 54-82)

The forum engine is not under src/, so the handler is parametrised by the
engine function `process`; the second component of the result is the list of
engine invocations (user_query, user_profile). -/

/-- Embedding of the analyze_market handler of src/app.py. -/
def analyze_market (process : Json → Json → Except String Json)
    (body : Option Dict) : Response × List (Json × Json) :=
  match body with
  | none => (jsonResp 400 (.obj [("error", .str "缺少必要参数: query")]), [])
  | some data =>
    if data.isEmpty || (data.lookup "query").isNone then
      (jsonResp 400 (.obj [("error", .str "缺少必要参数: query")]), [])
    else
      let user_query := (data.lookup "query").getD Json.null
      let user_profile := (data.lookup "user_profile").getD Json.null
      match process user_query user_profile with
      | .ok result =>
        (jsonResp 200 (.obj [("success", .bool true), ("data", result)]),
          [(user_query, user_profile)])
      | .error e =>
        (jsonResp 500 (.obj [("success", .bool false), ("error", .str e)]),
          [(user_query, user_profile)])

/-! ## user-profile persistence (src/app.py lines 199-253)

The handlers persist profiles as files user_data/<user_id>.json holding the
json.dump of the profile value; the file system is modelled as a partial map
from the interpolated file-name key to the stored JSON value. -/

/-- The profile store: user_id (as interpolated into the file name) to the
stored profile JSON. -/
abbrev ProfileStore := String → Option Json

/-- Python f-string interpolation of a scalar JSON value, as used for the file
name user_data/<user_id>.json.  Claims only exercise string user ids; the
container cases record that Python would interpolate the repr of the value,
which no theorem below depends on. -/
def jsonKey : Json → String
  | .str s => s
  | .num n => toString n
  | .bool true => "True"
  | .bool false => "False"
  | .null => "None"
  | .arr _ => "<repr of a list>"
  | .obj _ => "<repr of a dict>"

/-- Embedding of the save_user_profile handler of src/app.py: returns the
response and the updated store (json.dump to user_data/<user_id>.json,
overwriting any previous file for that id). -/
def save_user_profile (store : ProfileStore) (body : Option Dict) :
    Response × ProfileStore :=
  match body with
  | none => (jsonResp 400 (.obj [("error", .str "缺少用户ID")]), store)
  | some data =>
    if data.isEmpty || (data.lookup "user_id").isNone then
      (jsonResp 400 (.obj [("error", .str "缺少用户ID")]), store)
    else
      let user_id := jsonKey ((data.lookup "user_id").getD Json.null)
      let profile_data := (data.lookup "profile").getD (Json.obj [])
      (jsonResp 200 (.obj [("success", .bool true), ("message", .str "用户画像保存成功")]),
        fun k => if k = user_id then some profile_data else store k)

/-- Embedding of the get_user_profile handler of src/app.py: reads
user_data/<user_id>.json; 404 with a null profile when the file is absent. -/
def get_user_profile (store : ProfileStore) (user_id : String) : Response :=
  match store user_id with
  | none =>
    jsonResp 404 (.obj [("success", .bool false), ("error", .str "用户画像不存在"),
      ("profile", Json.null)])
  | some profile_data =>
    jsonResp 200 (.obj [("success", .bool true), ("profile", profile_data)])

/-! ## get_report (src/app.py lines 181-197)

Reports live as files reports/<report_id>.html; the directory is modelled as a
partial map from report id to the HTML contents.  The handler returns the
response together with the (unchanged) store, making explicit that retrieval
never creates or mutates a report. -/

/-- The report store: report id to the stored HTML document. -/
abbrev ReportStore := String → Option String

/-- Embedding of the get_report handler of src/app.py. -/
def get_report (store : ReportStore) (report_id : String) :
    Response × ReportStore :=
  match store report_id with
  | none => (jsonResp 404 (.obj [("error", .str "报告不存在")]), store)
  | some content => (⟨200, RespBody.html content⟩, store)

/-! ## The orchestration engine, modelled from the spec

models/forum_engine.py, agents/ and tools/ are not present under src/; only
their caller src/app.py is.  The definitions below model the missing pipeline
from the spec (sections 3, 4.1-4.5, 7, 8). -/

/-- Modelled from the spec: a news item of a MarketDataset (section 3);
agents/ and tools/ are missing from src/. -/
structure NewsItem where
  headline : String
  source : String
  timestamp : Nat

/-- Modelled from the spec: the per-ticker part of a MarketDataset
(section 3): an ordered sequence of (timestamp, price) points. -/
structure DatasetEntry where
  ticker : String
  points : List (Nat × Int)

/-- Modelled from the spec: MarketDataset (section 3); missing from src/. -/
structure MarketDataset where
  entries : List DatasetEntry
  news : List NewsItem
  indexes : List (String × Int)

/-- Modelled from the spec: a structured Query produced by QueryInterpreter
(section 3); missing from src/.  time_range is lookback days. -/
structure Query where
  raw_text : String
  entities : List String
  time_range : Nat
  intent_tag : String

/-- Modelled from the spec: a media artifact of an AnalysisResult
(section 3, {type, spec}); missing from src/. -/
structure Artifact where
  kind : String
  chart_spec : String

/-- Modelled from the spec: AnalysisResult (section 3); missing from src/. -/
structure AnalysisResult where
  media_artifacts : List Artifact
  tables : List (List String)

/-- Modelled from the spec: an evidence reference of an Insight (section 3):
a reference by identifier into the MarketDataset or the AnalysisResult. -/
inductive EvidenceRef where
  | tickerRef (t : String) : EvidenceRef
  | artifactRef (i : Nat) : EvidenceRef

/-- Modelled from the spec: Insight (section 3); confidence is in percent
(the spec's 0..1 scaled by 100); missing from src/. -/
structure Insight where
  category : String
  statement : String
  confidence : Nat
  evidence : List EvidenceRef

/-- Modelled from the spec: AggregatedResult (section 3); missing from src/.
The field failures models the spec's list of {stage, reason} entries for
stage-local failures absorbed into the result. -/
structure AggregatedResult where
  query : Query
  dataset : MarketDataset
  analysis : AnalysisResult
  insights : List Insight
  failures : List (String × String)

/-- Whether an evidence reference resolves within an AggregatedResult: a
ticker reference must name a dataset entry, an artifact reference must index
into the media artifacts (section 3 invariants). -/
def EvidenceRef.resolves (agg : AggregatedResult) : EvidenceRef → Bool
  | .tickerRef t => agg.dataset.entries.any fun d => d.ticker == t
  | .artifactRef i => i < agg.analysis.media_artifacts.length

/-- Modelled from the spec: the error taxonomy of section 7 for the engine. -/
inductive EngineError where
  | malformedQuery : EngineError
  | dataUnavailable : EngineError
  | insufficientData : EngineError

/-- Modelled from the spec: the outbound data-provider collaborators of
section 6.  A call returning none models a provider failure or timeout. -/
structure Providers where
  get_price_series : String → Nat → Option (List (Nat × Int))
  get_news : String → Option (List NewsItem)
  get_indexes : Option (List (String × Int))

/-- A record of one external provider call, for stating which calls an
engine run makes. -/
inductive ProviderCall where
  | price (ticker : String) (lookback_days : Nat) : ProviderCall
  | news (keyword : String) : ProviderCall
  | indexes : ProviderCall

/-- Modelled from the spec: QueryInterpreter.interpret (section 4.1);
agents/query_agent.py is missing from src/.  The opaque language-understanding
capability is the parameter extract: none models unparseable text (no
extractable entity or time range), some gives entities, lookback and intent.
Fails with MalformedQueryError only when raw_text is empty or unparseable. -/
def interpret (extract : String → Option (List String × Nat × String))
    (raw_text : String) : Except EngineError Query :=
  if raw_text = "" then .error .malformedQuery
  else
    match extract raw_text with
    | none => .error .malformedQuery
    | some (entities, time_range, intent_tag) =>
      .ok ⟨raw_text, entities, time_range, intent_tag⟩

/-- Modelled from the spec: DataStage.fetch (section 4.2); missing from src/.
For each resolved entity the price-series and news providers are called
independently, then the index provider once; a failed call leaves that
sub-result absent.  The stage raises DataUnavailableError only when there are
entities and every price series failed.  Returns the dataset together with
the trace of provider calls made. -/
def fetch (p : Providers) (q : Query) :
    Except EngineError MarketDataset × List ProviderCall :=
  let calls :=
    (q.entities.flatMap fun e => [ProviderCall.price e q.time_range, ProviderCall.news e])
      ++ [ProviderCall.indexes]
  let entries := q.entities.filterMap fun e =>
    (p.get_price_series e q.time_range).map fun pts => DatasetEntry.mk e pts
  if q.entities.isEmpty = false ∧ entries.isEmpty then
    (.error .dataUnavailable, calls)
  else
    let news := (q.entities.filterMap fun e => p.get_news e).flatten
    let indexes := p.get_indexes.getD []
    (.ok ⟨entries, news, indexes⟩, calls)

/-- Modelled from the spec: MediaStage.derive (section 4.3); missing from
src/.  Pure in its input; fails with InsufficientDataError only when the
dataset contains zero usable points, otherwise derives one chart spec per
entry and one summary row per entry. -/
def deriveMedia (ds : MarketDataset) : Except EngineError AnalysisResult :=
  if (ds.entries.map fun d => d.points.length).sum = 0 then
    .error .insufficientData
  else
    .ok ⟨ds.entries.map fun d => ⟨"chart", d.ticker⟩,
         ds.entries.map fun d => [d.ticker, toString d.points.length]⟩

/-- Modelled from the spec: InsightStage.derive (section 4.4); missing from
src/.  Never raises: sparse data yields fewer insights, the empty sequence
being legitimate.  Each insight carries a confidence and evidence referencing
the dataset entry it was derived from by identifier. -/
def deriveInsights (ds : MarketDataset) (_analysis : AnalysisResult) : List Insight :=
  ds.entries.map fun d =>
    { category := "trend"
      statement := "trend analysis for " ++ d.ticker
      confidence := if d.points.length ≥ 10 then 80 else 40
      evidence := [EvidenceRef.tickerRef d.ticker] }

/-- Modelled from the spec: ForumEngine.process (section 4.5);
models/forum_engine.py is missing from src/.  Interpreting and total data
unavailability are terminal; a MediaStage failure is absorbed as an empty
analysis plus a recorded stage failure.  Returns the result together with the
trace of provider calls made before returning. -/
def ForumEngine.process (extract : String → Option (List String × Nat × String))
    (p : Providers) (raw_text : String) (_profile : Option Json) :
    Except EngineError AggregatedResult × List ProviderCall :=
  match interpret extract raw_text with
  | .error e => (.error e, [])
  | .ok q =>
    match fetch p q with
    | (.error e, calls) => (.error e, calls)
    | (.ok ds, calls) =>
      match deriveMedia ds with
      | .error _ =>
        let emptyAnalysis : AnalysisResult := ⟨[], []⟩
        (.ok ⟨q, ds, emptyAnalysis, deriveInsights ds emptyAnalysis,
          [("media", "insufficient data")]⟩, calls)
      | .ok ar =>
        (.ok ⟨q, ds, ar, deriveInsights ds ar, []⟩, calls)

/-! ## ReportStage, modelled from the spec -/

/-- Modelled from the spec: the ReportStage error of section 7. -/
inductive ReportError where
  | incompleteInput : ReportError

/-- Modelled from the spec: a Report (section 3); agents/report_agent.py is
missing from src/. -/
structure Report where
  id : String
  rendered_body : String
  generated_at : Nat

mutual

/-- A rendering of a JSON value into the report body, so that the body is a
function of the composed fields. -/
def Json.render : Json → String
  | .null => "null"
  | .bool true => "true"
  | .bool false => "false"
  | .num n => toString n
  | .str s => s
  | .arr elements => "[" ++ String.intercalate ", " (Json.renderList elements) ++ "]"
  | .obj fields => "(" ++ String.intercalate ", " (Json.renderFields fields) ++ ")"

/-- Render each element of a JSON array. -/
def Json.renderList : List Json → List String
  | [] => []
  | j :: js => j.render :: Json.renderList js

/-- Render each field of a JSON object. -/
def Json.renderFields : List (String × Json) → List String
  | [] => []
  | (k, v) :: fs => (k ++ ": " ++ v.render) :: Json.renderFields fs

end

/-- Modelled from the spec: ReportStage.compose (section 4.6);
agents/report_agent.py is missing from src/.  Validates that the three
required fields are structurally present, failing with IncompleteInputError
for any combination of absent fields; the rendered body is a function of
query_data, analysis_results and insights alone (section 8 determinism), the
generated identifier and timestamp being supplied per call. -/
def compose (query_data analysis_results insights : Option Json)
    (_profile : Option Json) (fresh_id : String) (now : Nat) :
    Except ReportError Report :=
  match query_data, analysis_results, insights with
  | some q, some a, some i =>
    .ok { id := fresh_id
          rendered_body :=
            "QUERY " ++ q.render ++ " ANALYSIS " ++ a.render ++ " INSIGHTS " ++ i.render
          generated_at := now }
  | _, _, _ => .error .incompleteInput

/-! ## Theorems -/

/-- C1: a generate_report request missing any of query_data, analysis_results
or insights (any combination of absent fields, the absent body included) fails
with a 400 incomplete-input error and composition is never invoked; when all
three fields are present, composition is invoked exactly once, with exactly
those three field values and the optional user_profile. -/
theorem generate_report_validates_required_fields
    (compose : Json → Json → Json → Json → Except String Json)
    (body : Option Dict) :
    (body = none →
      (generate_report compose body).1.status = 400 ∧
        (generate_report compose body).2 = []) ∧
    (∀ data, body = some data →
      (data.lookup "query_data" = none ∨ data.lookup "analysis_results" = none ∨
        data.lookup "insights" = none) →
      (generate_report compose body).1.status = 400 ∧
        (generate_report compose body).2 = []) ∧
    (∀ data qd ar ins, body = some data →
      data.lookup "query_data" = some qd →
      data.lookup "analysis_results" = some ar →
      data.lookup "insights" = some ins →
      (generate_report compose body).2 =
        [(qd, ar, ins, (data.lookup "user_profile").getD Json.null)]) := by
  refine ⟨?_, ?_, ?_⟩
  · rintro rfl
    simp [generate_report, jsonResp]
  · rintro data rfl habs
    by_cases he : data.isEmpty
    · simp [generate_report, jsonResp, he]
    · rcases habs with h | h | h
      · simp [generate_report, jsonResp, he, h]
      · cases hq : data.lookup "query_data" <;>
          simp [generate_report, jsonResp, he, h, hq]
      · cases hq : data.lookup "query_data" <;>
          cases ha : data.lookup "analysis_results" <;>
            simp [generate_report, jsonResp, he, h, hq, ha]
  · rintro data qd ar ins rfl hq ha hi
    have he : data.isEmpty = false := by
      cases data with
      | nil => simp [Dict.lookup] at hq
      | cons x xs => rfl
    cases hc : compose qd ar ins ((data.lookup "user_profile").getD Json.null) <;>
      simp [generate_report, he, hq, ha, hi, hc]

/-- Witness for C1 at concrete inputs: a body carrying only query_data is
rejected with 400 and no composition, and a complete body leads to exactly one
composition call with its three fields. -/
theorem generate_report_validates_required_fields_witness :
    ((generate_report (fun _ _ _ _ => Except.ok Json.null)
        (some [("query_data", Json.num 1)])).1.status = 400 ∧
      (generate_report (fun _ _ _ _ => Except.ok Json.null)
        (some [("query_data", Json.num 1)])).2 = []) ∧
    (generate_report (fun _ _ _ _ => Except.ok Json.null)
        (some [("query_data", Json.num 1), ("analysis_results", Json.num 2),
          ("insights", Json.num 3)])).2 =
      [(Json.num 1, Json.num 2, Json.num 3, Json.null)] :=
  ⟨(generate_report_validates_required_fields (fun _ _ _ _ => Except.ok Json.null)
      (some [("query_data", Json.num 1)])).2.1 _ rfl (Or.inr (Or.inl rfl)),
   (generate_report_validates_required_fields (fun _ _ _ _ => Except.ok Json.null)
      (some [("query_data", Json.num 1), ("analysis_results", Json.num 2),
        ("insights", Json.num 3)])).2.2 _ _ _ _ rfl rfl rfl rfl⟩

/-- C2: on the empty query string the engine raises MalformedQueryError and the
trace of provider calls made before the error is empty.  The engine is
modelled from the spec, models/forum_engine.py not being under src/. -/
theorem process_empty_query_malformed_no_provider_call
    (extract : String → Option (List String × Nat × String)) (p : Providers)
    (profile : Option Json) :
    ForumEngine.process extract p "" profile =
      (Except.error EngineError.malformedQuery, []) := by
  simp [ForumEngine.process, interpret]

/-- C9: an analyze request with no JSON body or without the query key is
answered 400 and the engine is never invoked; a body whose query key is bound
to the empty string passes the check and is forwarded to the engine
unchanged. -/
theorem analyze_market_gatekeeps_query
    (process : Json → Json → Except String Json) (body : Option Dict) :
    (body = none →
      (analyze_market process body).1.status = 400 ∧
        (analyze_market process body).2 = []) ∧
    (∀ data, body = some data → data.lookup "query" = none →
      (analyze_market process body).1.status = 400 ∧
        (analyze_market process body).2 = []) ∧
    (∀ data, body = some data → data.lookup "query" = some (Json.str "") →
      (analyze_market process body).2 =
        [(Json.str "", (data.lookup "user_profile").getD Json.null)]) := by
  refine ⟨?_, ?_, ?_⟩
  · rintro rfl
    simp [analyze_market, jsonResp]
  · rintro data rfl h
    by_cases he : data.isEmpty <;> simp [analyze_market, jsonResp, he, h]
  · rintro data rfl h
    have he : data.isEmpty = false := by
      cases data with
      | nil => simp [Dict.lookup] at h
      | cons x xs => rfl
    cases hc : process (Json.str "") ((data.lookup "user_profile").getD Json.null) <;>
      simp [analyze_market, he, h, hc]

/-- Witness for C9 at concrete inputs: the absent body and a queryless body
are rejected without invoking the engine, while a body with query bound to the
empty string reaches the engine with that empty string. -/
theorem analyze_market_gatekeeps_query_witness :
    ((analyze_market (fun _ _ => Except.ok Json.null) none).1.status = 400 ∧
      (analyze_market (fun _ _ => Except.ok Json.null) none).2 = []) ∧
    ((analyze_market (fun _ _ => Except.ok Json.null)
        (some [("user_profile", Json.null)])).1.status = 400 ∧
      (analyze_market (fun _ _ => Except.ok Json.null)
        (some [("user_profile", Json.null)])).2 = []) ∧
    (analyze_market (fun _ _ => Except.ok Json.null)
        (some [("query", Json.str "")])).2 = [(Json.str "", Json.null)] :=
  ⟨(analyze_market_gatekeeps_query (fun _ _ => Except.ok Json.null) none).1 rfl,
   (analyze_market_gatekeeps_query (fun _ _ => Except.ok Json.null)
      (some [("user_profile", Json.null)])).2.1 _ rfl rfl,
   (analyze_market_gatekeeps_query (fun _ _ => Except.ok Json.null)
      (some [("query", Json.str "")])).2.2 _ rfl rfl⟩

/-- C3: reading a profile after saving it returns exactly the saved profile,
and a second save under the same user_id fully replaces the first, so the read
returns the most recent save (last-write-wins, no versioning). -/
theorem save_then_get_user_profile_roundtrip
    (store : ProfileStore) (uid : String) (p₁ p₂ : Json) (d₁ d₂ : Dict)
    (h₁u : d₁.lookup "user_id" = some (Json.str uid))
    (h₁p : d₁.lookup "profile" = some p₁)
    (h₂u : d₂.lookup "user_id" = some (Json.str uid))
    (h₂p : d₂.lookup "profile" = some p₂) :
    get_user_profile (save_user_profile store (some d₁)).2 uid
      = jsonResp 200 (.obj [("success", .bool true), ("profile", p₁)]) ∧
    get_user_profile
        (save_user_profile (save_user_profile store (some d₁)).2 (some d₂)).2 uid
      = jsonResp 200 (.obj [("success", .bool true), ("profile", p₂)]) := by
  have he₁ : d₁.isEmpty = false := by
    cases d₁ with
    | nil => simp [Dict.lookup] at h₁u
    | cons x xs => rfl
  have he₂ : d₂.isEmpty = false := by
    cases d₂ with
    | nil => simp [Dict.lookup] at h₂u
    | cons x xs => rfl
  constructor
  · simp [save_user_profile, he₁, h₁u, h₁p, jsonKey, get_user_profile]
  · simp [save_user_profile, he₁, h₁u, h₁p, he₂, h₂u, h₂p, jsonKey,
      get_user_profile]

/-- Witness for C3 at concrete inputs: saving profile A for user u1 and
reading gives A; saving profile B for u1 afterwards and reading gives B. -/
theorem save_then_get_user_profile_roundtrip_witness :
    get_user_profile
        (save_user_profile (fun _ => none)
          (some [("user_id", Json.str "u1"), ("profile", Json.str "A")])).2 "u1"
      = jsonResp 200 (.obj [("success", .bool true), ("profile", Json.str "A")]) ∧
    get_user_profile
        (save_user_profile
          (save_user_profile (fun _ => none)
            (some [("user_id", Json.str "u1"), ("profile", Json.str "A")])).2
          (some [("user_id", Json.str "u1"), ("profile", Json.str "B")])).2 "u1"
      = jsonResp 200 (.obj [("success", .bool true), ("profile", Json.str "B")]) :=
  save_then_get_user_profile_roundtrip (fun _ => none) "u1"
    (Json.str "A") (Json.str "B")
    [("user_id", Json.str "u1"), ("profile", Json.str "A")]
    [("user_id", Json.str "u1"), ("profile", Json.str "B")]
    rfl rfl rfl rfl

/-- C4: when the engine raises, the analyze caller receives a 500 structured
failure whose body carries only the success flag and the human-readable error
string, with no data field; when the engine succeeds, the caller receives a
200 success object carrying the result. -/
theorem analyze_market_failure_and_success_shape
    (process : Json → Json → Except String Json) (data : Dict) (q : Json)
    (hq : data.lookup "query" = some q) :
    (∀ e, process q ((data.lookup "user_profile").getD Json.null) =
        Except.error e →
      (analyze_market process (some data)).1 =
        jsonResp 500 (.obj [("success", .bool false), ("error", .str e)])) ∧
    (∀ r, process q ((data.lookup "user_profile").getD Json.null) =
        Except.ok r →
      (analyze_market process (some data)).1 =
        jsonResp 200 (.obj [("success", .bool true), ("data", r)])) := by
  have he : data.isEmpty = false := by
    cases data with
    | nil => simp [Dict.lookup] at hq
    | cons x xs => rfl
  constructor
  · intro e hc
    simp [analyze_market, he, hq, hc]
  · intro r hc
    simp [analyze_market, he, hq, hc]

/-- Witness for C4 at concrete inputs: an engine that raises yields the 500
failure object with the reason and no data; an engine that succeeds yields
the 200 success object carrying the result. -/
theorem analyze_market_failure_and_success_shape_witness :
    (analyze_market (fun _ _ => Except.error "boom")
        (some [("query", Json.str "AAPL")])).1 =
      jsonResp 500 (.obj [("success", .bool false), ("error", .str "boom")]) ∧
    (analyze_market (fun _ _ => Except.ok (Json.str "result"))
        (some [("query", Json.str "AAPL")])).1 =
      jsonResp 200 (.obj [("success", .bool true), ("data", Json.str "result")]) :=
  ⟨(analyze_market_failure_and_success_shape (fun _ _ => Except.error "boom")
      [("query", Json.str "AAPL")] (Json.str "AAPL") rfl).1 "boom" rfl,
   (analyze_market_failure_and_success_shape (fun _ _ => Except.ok (Json.str "result"))
      [("query", Json.str "AAPL")] (Json.str "AAPL") rfl).2 (Json.str "result") rfl⟩

/-- C7: retrieving a report by id returns the stored document when it exists
and a 404 not-found error when it does not, and retrieval leaves the report
store unchanged (never creates or mutates a report). -/
theorem get_report_lookup_only (store : ReportStore) (rid : String) :
    (∀ h, store rid = some h →
      (get_report store rid).1 = ⟨200, RespBody.html h⟩) ∧
    (store rid = none →
      (get_report store rid).1 = jsonResp 404 (.obj [("error", .str "报告不存在")])) ∧
    (get_report store rid).2 = store := by
  refine ⟨?_, ?_, ?_⟩
  · intro h hs
    simp [get_report, hs]
  · intro hs
    simp [get_report, hs]
  · cases hs : store rid <;> simp [get_report, hs]

/-- Witness for C7 at concrete inputs: a store holding report r1 serves it at
r1, answers 404 at r2, and is unchanged by both retrievals. -/
theorem get_report_lookup_only_witness :
    (get_report (fun r => if r = "r1" then some "<html>body</html>" else none)
        "r1").1 = ⟨200, RespBody.html "<html>body</html>"⟩ ∧
    (get_report (fun r => if r = "r1" then some "<html>body</html>" else none)
        "r2").1 = jsonResp 404 (.obj [("error", .str "报告不存在")]) ∧
    (get_report (fun r => if r = "r1" then some "<html>body</html>" else none)
        "r2").2 = fun r => if r = "r1" then some "<html>body</html>" else none :=
  ⟨(get_report_lookup_only
      (fun r => if r = "r1" then some "<html>body</html>" else none) "r1").1
      "<html>body</html>" rfl,
   (get_report_lookup_only
      (fun r => if r = "r1" then some "<html>body</html>" else none) "r2").2.1 rfl,
   (get_report_lookup_only
      (fun r => if r = "r1" then some "<html>body</html>" else none) "r2").2.2⟩

/-- C8: loading a profile for a user_id with no saved profile returns a
structured 404 not-found response carrying a null profile, neither succeeding
nor raising an unstructured error. -/
theorem get_user_profile_not_found (store : ProfileStore) (uid : String)
    (h : store uid = none) :
    get_user_profile store uid =
      jsonResp 404 (.obj [("success", .bool false), ("error", .str "用户画像不存在"),
        ("profile", Json.null)]) := by
  simp [get_user_profile, h]

/-- Witness for C8 at a concrete input: the empty store answers 404 with a
null profile for user u1. -/
theorem get_user_profile_not_found_witness :
    get_user_profile (fun _ => none) "u1" =
      jsonResp 404 (.obj [("success", .bool false), ("error", .str "用户画像不存在"),
        ("profile", Json.null)]) :=
  get_user_profile_not_found (fun _ => none) "u1" rfl

/-- C10: a save request carrying a user_id but no profile field succeeds and
persists the empty object for that user_id, so a subsequent load returns the
empty object rather than not-found. -/
theorem save_user_profile_defaults_to_empty_object
    (store : ProfileStore) (uid : String) (d : Dict)
    (hu : d.lookup "user_id" = some (Json.str uid))
    (hp : d.lookup "profile" = none) :
    (save_user_profile store (some d)).1.status = 200 ∧
    get_user_profile (save_user_profile store (some d)).2 uid
      = jsonResp 200 (.obj [("success", .bool true), ("profile", Json.obj [])]) := by
  have he : d.isEmpty = false := by
    cases d with
    | nil => simp [Dict.lookup] at hu
    | cons x xs => rfl
  constructor
  · simp [save_user_profile, jsonResp, he, hu]
  · simp [save_user_profile, he, hu, hp, jsonKey, get_user_profile]

/-- Witness for C10 at a concrete input: saving with only a user_id succeeds
and the subsequent load of that user returns the empty object. -/
theorem save_user_profile_defaults_to_empty_object_witness :
    (save_user_profile (fun _ => none)
        (some [("user_id", Json.str "u1")])).1.status = 200 ∧
    get_user_profile
        (save_user_profile (fun _ => none) (some [("user_id", Json.str "u1")])).2
        "u1"
      = jsonResp 200 (.obj [("success", .bool true), ("profile", Json.obj [])]) :=
  save_user_profile_defaults_to_empty_object (fun _ => none) "u1"
    [("user_id", Json.str "u1")] rfl rfl

/-- Every insight derived by the insight stage carries evidence that resolves
within any aggregated result whose dataset is the one it was derived from. -/
theorem deriveInsights_evidence_resolves (ds : MarketDataset)
    (ar : AnalysisResult) (agg : AggregatedResult) (hds : agg.dataset = ds) :
    ∀ i ∈ deriveInsights ds ar, ∀ r ∈ i.evidence, r.resolves agg = true := by
  intro i hi r hr
  rw [deriveInsights, List.mem_map] at hi
  obtain ⟨d, hd, rfl⟩ := hi
  simp only [List.mem_singleton] at hr
  subst hr
  simp only [EvidenceRef.resolves, hds, List.any_eq_true]
  exact ⟨d, hd, by simp⟩

/-- C5: whenever the engine returns an AggregatedResult for a non-empty query
text, the result's query.raw_text equals the given input and every insight's
evidence references resolve within that same result.  The engine is modelled
from the spec, models/forum_engine.py not being under src/. -/
theorem process_preserves_raw_text_and_evidence
    (extract : String → Option (List String × Nat × String)) (p : Providers)
    (raw : String) (profile : Option Json) (agg : AggregatedResult)
    (hraw : raw ≠ "")
    (hok : (ForumEngine.process extract p raw profile).1 = Except.ok agg) :
    agg.query.raw_text = raw ∧
      ∀ i ∈ agg.insights, ∀ r ∈ i.evidence, r.resolves agg = true := by
  unfold ForumEngine.process at hok
  rw [interpret, if_neg hraw] at hok
  cases hx : extract raw with
  | none => rw [hx] at hok; simp at hok
  | some t =>
    rw [hx] at hok
    obtain ⟨ents, tr, it⟩ := t
    dsimp only at hok
    cases hf : fetch p ⟨raw, ents, tr, it⟩ with
    | mk res calls =>
      rw [hf] at hok
      cases res with
      | error e => simp at hok
      | ok ds =>
        dsimp only at hok
        cases hm : deriveMedia ds with
        | error e =>
          rw [hm] at hok
          simp only [Except.ok.injEq] at hok
          subst hok
          exact ⟨rfl, deriveInsights_evidence_resolves ds ⟨[], []⟩ _ rfl⟩
        | ok ar =>
          rw [hm] at hok
          simp only [Except.ok.injEq] at hok
          subst hok
          exact ⟨rfl, deriveInsights_evidence_resolves ds ar _ rfl⟩

/-- A concrete extractor for the witness: parses the AAPL trend query. -/
def extractW : String → Option (List String × Nat × String) := fun s =>
  if s = "AAPL trend last 30 days" then some (["AAPL"], 30, "trend") else none

/-- Concrete providers for the witness: two AAPL price points, one news item,
one index. -/
def providersW : Providers where
  get_price_series := fun t _ =>
    if t = "AAPL" then some [(1, 100), (2, 101)] else none
  get_news := fun _ => some [⟨"AAPL hits high", "wire", 1⟩]
  get_indexes := some [("SPX", 5000)]

/-- The aggregated result the modelled engine produces on the witness run. -/
def aggW : AggregatedResult where
  query := ⟨"AAPL trend last 30 days", ["AAPL"], 30, "trend"⟩
  dataset := ⟨[⟨"AAPL", [(1, 100), (2, 101)]⟩], [⟨"AAPL hits high", "wire", 1⟩],
    [("SPX", 5000)]⟩
  analysis := ⟨[⟨"chart", "AAPL"⟩], [["AAPL", "2"]]⟩
  insights := [⟨"trend", "trend analysis for AAPL", 40,
    [EvidenceRef.tickerRef "AAPL"]⟩]
  failures := []

/-- Witness for C5 at concrete inputs: on the AAPL trend query the engine
returns aggW, whose raw_text is the input and whose evidence resolves. -/
theorem process_preserves_raw_text_and_evidence_witness :
    aggW.query.raw_text = "AAPL trend last 30 days" ∧
      ∀ i ∈ aggW.insights, ∀ r ∈ i.evidence, r.resolves aggW = true :=
  process_preserves_raw_text_and_evidence extractW providersW
    "AAPL trend last 30 days" none aggW (by decide) (by rfl)

/-- C6: report composition is deterministic: two compose calls given identical
query_data, analysis_results and insights produce reports with identical
rendered_body, only the generated identifier and timestamp differing with the
per-call supplies.  ReportStage is modelled from the spec,
agents/report_agent.py not being under src/. -/
theorem compose_rendered_body_deterministic
    (q a i : Json) (p₁ p₂ : Option Json) (id₁ id₂ : String) (t₁ t₂ : Nat) :
    (compose (some q) (some a) (some i) p₁ id₁ t₁).map Report.rendered_body =
      (compose (some q) (some a) (some i) p₂ id₂ t₂).map Report.rendered_body :=
  rfl

end FinAdvisory
